import Mathlib

set_option linter.unusedVariables false

/-
Verification of the task/change orchestration pipeline of the initflow
backend: a shallow embedding of the relevant handlers of
src/app/routers/agents.py, src/app/routers/specs.py and
src/app/services/ai_service.py over an explicit record-store state,
together with proofs of the pipeline's stated properties.

The Supabase record store is modelled as lists of typed rows; a
`table(...).eq(...).execute()` point query is a `List.find?`, a filtered
list is a `List.filter`, an `insert` is an append, and an `update ... eq`
is a `List.map` that rewrites the matching rows.  Handlers are state
transformers `DB → Except ApiError α × DB`: writes performed before an
HTTPException persist (the store is non-transactional), and raising stops
further writes.
-/

namespace InitFlow

deriving instance DecidableEq for Except

/-- Authenticated actor as produced by `get_current_user` (src/app/models.py,
class User); only the fields the orchestration code reads are modelled. -/
structure User where
  id : String
  tier : String
  deriving DecidableEq

/-- Row of the `projects` table; only the fields read by the handlers. -/
structure Project where
  id : String
  user_id : String
  deriving DecidableEq

/-- Row of the `spec_files` table (src/app/models.py, class SpecFile). -/
structure SpecFile where
  id : String
  project_id : String
  file_type : String
  content : String
  version : Nat
  created_by : String
  deriving DecidableEq

/-- Row of the `spec_versions` table (src/app/models.py, class SpecVersion). -/
structure SpecVersion where
  id : String
  spec_file_id : String
  version : Nat
  content : String
  changes_summary : String
  created_by : String
  deriving DecidableEq

/-- The `input_context` JSON written by submit_task
(`{"user_request": ...}`) and by request_modification
(`{"modification_request": ..., "original_change_id": ..., "original_file": ...}`). -/
inductive InputContext where
  | user_request (description : String)
  | modification_request (feedback : String) (original_change_id : String)
      (original_file : String)
  deriving DecidableEq

/-- The `output` JSON written on task completion: either
`{"generated_files": [...]}` (process_agent_task) or
`{"modification_applied": true, "feedback": ...}` (process_modification_request). -/
inductive TaskOutput where
  | generated_files (paths : List String)
  | modification_applied (feedback : String)
  deriving DecidableEq

/-- Row of the `tasks` table (src/app/models.py, class Task). -/
structure Task where
  id : String
  project_id : String
  agent_type : String
  description : String
  status : String
  input_context : InputContext
  output : Option TaskOutput
  deriving DecidableEq

/-- Row of the `code_changes` table (src/app/models.py, class CodeChange);
`approved = none` is pending review. -/
structure CodeChange where
  id : String
  task_id : String
  file_path : String
  change_type : String
  diff : String
  agent_type : String
  reasoning : String
  approved : Option Bool
  deriving DecidableEq

/-- The record store: one list of rows per table touched by the pipeline. -/
structure DB where
  projects : List Project
  spec_files : List SpecFile
  spec_versions : List SpecVersion
  tasks : List Task
  code_changes : List CodeChange
  deriving DecidableEq

/-- Error taxonomy visible at the handler boundary: the raised
HTTPExceptions (404, 403) plus the propagated generation failure. -/
inductive ApiError where
  | notFound
  | forbidden
  | generationFailed
  deriving DecidableEq

/-- Result shape of `ai_service.generate_code`: a map of file path to
generated content (modelled as an association list) plus a reasoning string. -/
structure GenResult where
  files : List (String × String)
  reasoning : String
  deriving DecidableEq

/-- Input handed to the Generation Gateway by process_agent_task:
the user's tier, the task description, the agent type and the project
context (spec excerpts). -/
structure GenInput where
  tier : String
  description : String
  agent_type : String
  context : List (String × String)
  deriving DecidableEq

/-- The Generation Gateway (`ai_service.generate_code` at the call site in
process_agent_task), abstracted as an external capability that may fail or
time out (`none`). -/
abbrev Gen : Type := GenInput → Option GenResult

/-- Rows of `spec_files` matching `(project_id, file_type)` — the filter
used by the spec handlers (src/app/routers/specs.py). -/
def spec_rows (db : DB) (project_id file_type : String) : List SpecFile :=
  db.spec_files.filter (fun s => s.project_id == project_id && s.file_type == file_type)

/-- Rows of `spec_versions` that snapshot the given spec file. -/
def versions_for (db : DB) (spec_file_id : String) : List SpecVersion :=
  db.spec_versions.filter (fun v => v.spec_file_id == spec_file_id)

/-- Rows of `code_changes` belonging to the given task. -/
def changes_for (db : DB) (task_id : String) : List CodeChange :=
  db.code_changes.filter (fun c => c.task_id == task_id)

/-- The select in the spec handlers:
`.eq("project_id", ...).eq("file_type", ...).order("version", desc=True).limit(1)`
— the first row of maximal version among the matching rows
(src/app/routers/specs.py lines 20-26 and 48-54). -/
def current_spec_query (db : DB) (project_id file_type : String) : Option SpecFile :=
  (spec_rows db project_id file_type).foldl
    (fun acc s =>
      match acc with
      | none => some s
      | some m => if m.version < s.version then some s else some m) none

/-- GET /{file_type} handler `get_spec_file` (src/app/routers/specs.py
lines 11-34).  The authenticated user is a dependency the handler never
reads. -/
def get_spec_file (project_id file_type : String) (current_user : User) (db : DB) :
    Except ApiError SpecFile :=
  match current_spec_query db project_id file_type with
  | none => .error .notFound
  | some s => .ok s

/-- PUT /{file_type} handler `update_spec_file` (src/app/routers/specs.py
lines 37-89).  `version_id` stands for the uuid4 minted for the history row. -/
def update_spec_file (project_id file_type : String) (spec_content : String)
    (current_user : User) (version_id : String) (db : DB) :
    Except ApiError SpecFile × DB :=
  match current_spec_query db project_id file_type with
  | none => (.error .notFound, db)
  | some current_spec =>
    let version_data : SpecVersion :=
      { id := version_id, spec_file_id := current_spec.id, version := current_spec.version,
        content := current_spec.content, changes_summary := "Updated via editor",
        created_by := current_user.id }
    let db1 : DB := { db with spec_versions := db.spec_versions ++ [version_data] }
    let new_version := current_spec.version + 1
    let new_files := db1.spec_files.map (fun s =>
      if s.id == current_spec.id
      then { s with content := spec_content, version := new_version } else s)
    let db2 : DB := { db1 with spec_files := new_files }
    (.ok { current_spec with content := spec_content, version := new_version }, db2)

/-- POST /{file_type}/rollback handler `rollback_spec`
(src/app/routers/specs.py lines 124-187).  The target version is looked up
by id alone; the spec file is then fetched through the version's own
`spec_file_id` — the `project_id`/`file_type` route parameters are never
consulted.  `history_id` stands for the uuid4 minted for the checkpoint row. -/
def rollback_spec (project_id file_type : String) (version_id : String)
    (current_user : User) (history_id : String) (db : DB) :
    Except ApiError SpecFile × DB :=
  match db.spec_versions.find? (fun v => v.id == version_id) with
  | none => (.error .notFound, db)
  | some version =>
    match db.spec_files.find? (fun s => s.id == version.spec_file_id) with
    | none => (.error .notFound, db)
    | some current_spec =>
      let history_data : SpecVersion :=
        { id := history_id, spec_file_id := current_spec.id, version := current_spec.version,
          content := current_spec.content,
          changes_summary := "Before rollback to version " ++ toString version.version,
          created_by := current_user.id }
      let db1 : DB := { db with spec_versions := db.spec_versions ++ [history_data] }
      let new_version := current_spec.version + 1
      let new_files := db1.spec_files.map (fun s =>
        if s.id == current_spec.id
        then { s with content := version.content, version := new_version } else s)
      let db2 : DB := { db1 with spec_files := new_files }
      (.ok { current_spec with content := version.content, version := new_version }, db2)

/-- Python's `content.split("\n")`: split a character list at newlines,
keeping empty segments (so `"" → [""]` and a trailing newline yields a
trailing empty line), with `acc` the segment read so far. -/
def split_lines : List Char → String → List String
  | [], acc => [acc]
  | ch :: rest, acc =>
      if ch = '\n' then acc :: split_lines rest "" else split_lines rest (acc.push ch)

/-- The diff rendering of process_agent_task (src/app/routers/agents.py
line 81): every line of the generated content, prefixed with "+ ". -/
def render_diff (file_content : String) : String :=
  String.intercalate "\n" ((split_lines file_content.data "").map (fun line => "+ " ++ line))

/-- The project-context query of process_agent_task (src/app/routers/agents.py
lines 68-71): spec excerpts truncated to 1000 characters, keyed by file type. -/
def project_context_query (db : DB) (project_id : String) : List (String × String) :=
  (db.spec_files.filter (fun s => s.project_id == project_id)).map
    (fun s => (s.file_type, s.content.take 1000))

/-- `process_agent_task` (src/app/routers/agents.py lines 58-104).  `gen` is
the Generation Gateway; `mkChangeId` stands for the uuid4 minted for the
change created from the i-th generated file.  An exception from the gateway
propagates: nothing is written after the failure. -/
def process_agent_task (gen : Gen) (mkChangeId : Nat → String)
    (task_id agent_type description : String) (user : User) (db : DB) :
    Except ApiError Unit × DB :=
  let project_context :=
    match (db.tasks.find? (fun t => t.id == task_id)).map (fun t => t.project_id) with
    | some pid => project_context_query db pid
    | none => []
  match gen { tier := user.tier, description := description, agent_type := agent_type,
              context := project_context } with
  | none => (.error .generationFailed, db)
  | some code_result =>
    let new_changes : List CodeChange := code_result.files.enum.map (fun pc =>
      { id := mkChangeId pc.1, task_id := task_id, file_path := pc.2.1,
        change_type := "create", diff := render_diff pc.2.2, agent_type := agent_type,
        reasoning := code_result.reasoning, approved := none })
    let db1 : DB := { db with code_changes := db.code_changes ++ new_changes }
    let updated_tasks := db1.tasks.map (fun t =>
      if t.id == task_id
      then { t with status := "completed",
                    output := some (.generated_files (code_result.files.map Prod.fst)) }
      else t)
    let db2 : DB := { db1 with tasks := updated_tasks }
    (.ok (), db2)

/-- POST /tasks handler `submit_task` (src/app/routers/agents.py lines 11-55).
`task_id` stands for the uuid4 minted for the task.  The handler returns the
task row as inserted (status "pending"), captured before processing. -/
def submit_task (gen : Gen) (mkChangeId : Nat → String) (project_id : String)
    (task_description task_agent_type : String) (current_user : User)
    (task_id : String) (db : DB) : Except ApiError Task × DB :=
  match db.projects.find? (fun p => p.id == project_id) with
  | none => (.error .notFound, db)
  | some project =>
    if project.user_id ≠ current_user.id then (.error .forbidden, db)
    else
      let task_data : Task :=
        { id := task_id, project_id := project_id, agent_type := task_agent_type,
          description := task_description, status := "pending",
          input_context := .user_request task_description, output := none }
      let db1 : DB := { db with tasks := db.tasks ++ [task_data] }
      match process_agent_task gen mkChangeId task_id task_agent_type task_description
              current_user db1 with
      | (.error e, db2) => (.error e, db2)
      | (.ok _, db2) => (.ok task_data, db2)

/-- The joined select of approve/reject/modify (src/app/routers/agents.py
lines 154-158, 194-198, 233-237): the code change with the given id,
inner-joined to its task filtered by `tasks.project_id == project_id`,
inner-joined to the task's project; yields the change row together with the
project owner's user id. -/
def change_owner_query (db : DB) (change_id project_id : String) :
    Option (CodeChange × String) :=
  (db.code_changes.find? (fun c => c.id == change_id)).bind fun c =>
    (db.tasks.find? (fun t => t.id == c.task_id)).bind fun t =>
      if t.project_id == project_id then
        (db.projects.find? (fun p => p.id == t.project_id)).map fun p => (c, p.user_id)
      else none

/-- `update({"approved": b}).eq("id", change_id)` on the code_changes table. -/
def set_approved (db : DB) (change_id : String) (b : Bool) : DB :=
  let updated := db.code_changes.map (fun c =>
    if c.id == change_id then { c with approved := some b } else c)
  { db with code_changes := updated }

/-- POST /changes/{change_id}/approve handler `approve_change`
(src/app/routers/agents.py lines 144-181).  No check of the current
approval state precedes the update. -/
def approve_change (project_id change_id : String) (current_user : User) (db : DB) :
    Except ApiError Unit × DB :=
  match change_owner_query db change_id project_id with
  | none => (.error .notFound, db)
  | some (_, owner_id) =>
    if owner_id ≠ current_user.id then (.error .forbidden, db)
    else (.ok (), set_approved db change_id true)

/-- POST /changes/{change_id}/reject handler `reject_change`
(src/app/routers/agents.py lines 184-219). -/
def reject_change (project_id change_id : String) (current_user : User) (db : DB) :
    Except ApiError Unit × DB :=
  match change_owner_query db change_id project_id with
  | none => (.error .notFound, db)
  | some (_, owner_id) =>
    if owner_id ≠ current_user.id then (.error .forbidden, db)
    else (.ok (), set_approved db change_id false)

/-- `process_modification_request` (src/app/routers/agents.py lines 418-452).
No call to the AI service is made: the new diff is the original change's
diff wrapped in feedback header and trailer lines, built textually. -/
def process_modification_request (task_id : String) (original_change : CodeChange)
    (feedback : String) (change_id : String) (db : DB) : DB :=
  let modified_diff :=
    "# Modified based on feedback: " ++ feedback ++ "\n" ++ original_change.diff ++
    "\n+ // Additional modifications based on user feedback\n+ // " ++ feedback
  let change_data : CodeChange :=
    { id := change_id, task_id := task_id, file_path := original_change.file_path,
      change_type := "modify", diff := modified_diff,
      agent_type := original_change.agent_type,
      reasoning := "Modified based on user feedback: " ++ feedback, approved := none }
  let db1 : DB := { db with code_changes := db.code_changes ++ [change_data] }
  let updated_tasks := db1.tasks.map (fun t =>
    if t.id == task_id
    then { t with status := "completed", output := some (.modification_applied feedback) }
    else t)
  { db1 with tasks := updated_tasks }

/-- POST /changes/{change_id}/modify handler `request_modification`
(src/app/routers/agents.py lines 222-278).  The change row is captured
before the approved=false update, and that captured row feeds
process_modification_request.  `task_id` and `new_change_id` stand for the
minted uuid4s. -/
def request_modification (project_id change_id : String) (feedback : String)
    (current_user : User) (task_id new_change_id : String) (db : DB) :
    Except ApiError Unit × DB :=
  match change_owner_query db change_id project_id with
  | none => (.error .notFound, db)
  | some (change, owner_id) =>
    if owner_id ≠ current_user.id then (.error .forbidden, db)
    else
      let task_data : Task :=
        { id := task_id, project_id := project_id, agent_type := change.agent_type,
          description := "Modify previous change: " ++ feedback, status := "pending",
          input_context := .modification_request feedback change_id change.file_path,
          output := none }
      let db1 : DB := { db with tasks := db.tasks ++ [task_data] }
      let db2 := set_approved db1 change_id false
      (.ok (), process_modification_request task_id change feedback new_change_id db2)

/-- Generation configuration per tier (src/app/services/ai_service.py,
AIService.__init__). -/
structure ModelConfig where
  name : String
  endpoint : String
  max_tokens : Nat
  context_window : Nat
  deriving DecidableEq

/-- The `free` entry of `self.models`. -/
def free_config : ModelConfig :=
  { name := "llama-3.1-8b", endpoint := "https://api.together.xyz/v1/chat/completions",
    max_tokens := 2048, context_window := 8192 }

/-- `self.models` (src/app/services/ai_service.py lines 14-33). -/
def models_table : List (String × ModelConfig) :=
  [("free", free_config),
   ("pro", { name := "gemini-2.0-flash-exp",
             endpoint := "https://generativelanguage.googleapis.com/v1beta/models/gemini-2.0-flash-exp:generateContent",
             max_tokens := 4096, context_window := 32768 }),
   ("premium", { name := "gemini-2.0-flash-exp",
                 endpoint := "https://generativelanguage.googleapis.com/v1beta/models/gemini-2.0-flash-exp:generateContent",
                 max_tokens := 8192, context_window := 1000000 })]

/-- `self.models.get(user.tier, self.models["free"])`
(src/app/services/ai_service.py line 109). -/
def models_get (tier : String) : ModelConfig :=
  ((models_table.find? (fun e => e.1 == tier)).map (fun e => e.2)).getD free_config

/-- Which generation body `generate_code` dispatches to. -/
inductive GenPathKind where
  | basic
  | advanced
  deriving DecidableEq

/-- The dispatch of `AIService.generate_code`
(src/app/services/ai_service.py lines 112-115):
`if user.tier in ["pro", "premium"]` use the advanced body, else the basic one. -/
def generate_code_path (tier : String) : GenPathKind :=
  if tier == "pro" || tier == "premium" then .advanced else .basic

/-- Tier resolution of `generate_code`: the model configuration together
with the chosen generation body. -/
def generate_code_config (tier : String) : ModelConfig × GenPathKind :=
  (models_get tier, generate_code_path tier)

/-- Erase the author stamps on history rows: everything an actor can
influence in the spec handlers apart from succeeding or failing. -/
def scrub_versions (db : DB) : DB :=
  { db with spec_versions := db.spec_versions.map (fun v => { v with created_by := "" }) }

/-- True when a diff is a unified-style addition listing, i.e. every line
carries the "+ " addition marker — the shape of every diff the generation
flow of process_agent_task renders. -/
def diff_is_addition_listing (d : String) : Bool :=
  (split_lines d.data "").all (fun line => line.data.take 2 == ['+', ' '])

/-- N sequential update calls on the same (project_id, file_type) document,
with the given list of new contents; `mkVersionId k` supplies the uuid for
the k-th minted history row. -/
def update_spec_file_iter (project_id file_type : String) (current_user : User)
    (mkVersionId : Nat → String) : Nat → List String → DB → DB
  | _, [], db => db
  | k, c :: rest, db =>
      update_spec_file_iter project_id file_type current_user mkVersionId (k + 1) rest
        (update_spec_file project_id file_type c current_user (mkVersionId k) db).2

/-- The content a document ends with after being overwritten by each element
of the list in turn (its original content when the list is empty). -/
def final_content (c : String) : List String → String
  | [] => c
  | c1 :: rest => final_content c1 rest

/-- The history rows that the update sequence appends: a snapshot of the
pre-update version and content before each overwrite. -/
def snapshot_chain (spec_file_id : String) (current_user : User)
    (mkVersionId : Nat → String) : Nat → Nat → String → List String → List SpecVersion
  | _, _, _, [] => []
  | k, v, c, c1 :: rest =>
      { id := mkVersionId k, spec_file_id := spec_file_id, version := v, content := c,
        changes_summary := "Updated via editor", created_by := current_user.id } ::
      snapshot_chain spec_file_id current_user mkVersionId (k + 1) (v + 1) c1 rest

/-- Fixture actor owning project p1. -/
def u1 : User := { id := "u1", tier := "free" }

/-- Fixture actor owning project p2 only. -/
def u2 : User := { id := "u2", tier := "free" }

/-- Fixture gateway returning a single generated file. -/
def gen_one : Gen := fun _ => some { files := [("auth.js", "x")], reasoning := "r" }

/-- Fixture gateway that always fails (gateway error or timeout). -/
def gen_fail : Gen := fun _ => none

/-- Fixture uuid supply for code changes. -/
def mk_id (n : Nat) : String := "chg" ++ toString n

def p1 : Project := { id := "p1", user_id := "u1" }

def p2 : Project := { id := "p2", user_id := "u2" }

def t1 : Task :=
  { id := "t1", project_id := "p1", agent_type := "design", description := "d",
    status := "completed", input_context := .user_request "d", output := none }

/-- Fixture pending change under t1. -/
def c1 : CodeChange :=
  { id := "c1", task_id := "t1", file_path := "App.js", change_type := "create",
    diff := "+ x", agent_type := "design", reasoning := "r", approved := none }

def db_main : DB :=
  { projects := [p1], spec_files := [], spec_versions := [], tasks := [t1],
    code_changes := [c1] }

/-- Fixture change that has already been decided (rejected). -/
def c1_rejected : CodeChange := { c1 with approved := some false }

def db_decided : DB := { db_main with code_changes := [c1_rejected] }

def sf1 : SpecFile :=
  { id := "sf1", project_id := "p1", file_type := "design", content := "v0",
    version := 1, created_by := "u1" }

def db_spec : DB :=
  { projects := [p1], spec_files := [sf1], spec_versions := [], tasks := [],
    code_changes := [] }

def sv1 : SpecVersion :=
  { id := "sv1", spec_file_id := "sf1", version := 1, content := "old",
    changes_summary := "seed", created_by := "u1" }

def db_spec_hist : DB := { db_spec with spec_versions := [sv1] }

/-- Fixture version row whose spec file is missing from the store. -/
def sv_orphan : SpecVersion :=
  { id := "sv0", spec_file_id := "ghost", version := 1, content := "o",
    changes_summary := "seed", created_by := "u1" }

def db_orphan : DB := { db_spec with spec_files := [], spec_versions := [sv_orphan] }

def sf2 : SpecFile :=
  { id := "sf2", project_id := "p2", file_type := "design", content := "other",
    version := 3, created_by := "u2" }

def sv2 : SpecVersion :=
  { id := "sv2", spec_file_id := "sf2", version := 2, content := "older",
    changes_summary := "h", created_by := "u2" }

/-- Fixture with two projects: the (p1, design) document is sf1, while the
version row sv2 belongs to p2's document sf2. -/
def db_cross : DB :=
  { projects := [p1, p2], spec_files := [sf1, sf2], spec_versions := [sv2],
    tasks := [], code_changes := [] }

/-- Updating the rows matched by `p` with a `p`-preserving rewrite commutes
with `find?`: the first match is rewritten in place and stays first. -/
theorem find?_map_ite {α : Type} (p : α → Bool) (f : α → α)
    (hf : ∀ x, p x = true → p (f x) = true) :
    ∀ l : List α, (l.map (fun x => if p x then f x else x)).find? p = (l.find? p).map f
  | [] => rfl
  | a :: l => by
    cases h : p a with
    | true =>
      have hfa := hf a h
      simp only [List.map_cons, if_pos h, List.find?_cons_of_pos _ hfa,
        List.find?_cons_of_pos _ h, Option.map_some']
    | false =>
      have h0 : ¬ p a = true := by simp [h]
      simp only [List.map_cons, if_neg h0, List.find?_cons_of_neg _ h0]
      exact find?_map_ite p f hf l

/-- Mapping with a function that does not change membership in `p` commutes
with `filter`. -/
theorem filter_map_comm {α : Type} (p : α → Bool) (g : α → α)
    (h : ∀ x, p (g x) = p x) :
    ∀ l : List α, (l.map g).filter p = (l.filter p).map g
  | [] => rfl
  | a :: l => by
    cases ha : p a with
    | true => simp [List.filter_cons, h a, ha, filter_map_comm p g h l]
    | false => simp [List.filter_cons, h a, ha, filter_map_comm p g h l]

/-- A hit in the left part of an append is the hit of the whole append. -/
theorem find?_append_left {α : Type} (p : α → Bool) {l1 l2 : List α} {a : α}
    (h : l1.find? p = some a) : (l1 ++ l2).find? p = some a := by
  induction l1 with
  | nil => simp [List.find?] at h
  | cons b l ih =>
    cases hb : p b with
    | true =>
      rw [List.find?_cons_of_pos _ hb] at h
      simpa [List.cons_append, List.find?_cons_of_pos _ hb] using h
    | false =>
      have hb0 : ¬ p b = true := by simp [hb]
      rw [List.find?_cons_of_neg _ hb0] at h
      simpa [List.cons_append, List.find?_cons_of_neg _ hb0] using ih h

/-- With no hit on the left, `find?` continues into the right part. -/
theorem find?_append_none {α : Type} (p : α → Bool) {l1 : List α} (l2 : List α)
    (h : l1.find? p = none) : (l1 ++ l2).find? p = l2.find? p := by
  induction l1 with
  | nil => simp
  | cons b l ih =>
    cases hb : p b with
    | true => rw [List.find?_cons_of_pos _ hb] at h; exact absurd h (by simp)
    | false =>
      have hb0 : ¬ p b = true := by simp [hb]
      rw [List.find?_cons_of_neg _ hb0] at h
      simpa [List.cons_append, List.find?_cons_of_neg _ hb0] using ih h

/-- Appending a single match after a list of non-matches makes it the hit. -/
theorem find?_append_singleton {α : Type} (p : α → Bool) (l : List α) (a : α)
    (hl : ∀ x ∈ l, p x = false) (ha : p a = true) :
    (l ++ [a]).find? p = some a := by
  have hn : l.find? p = none := by
    rw [List.find?_eq_none]
    intro x hx
    simp [hl x hx]
  rw [find?_append_none p [a] hn, List.find?_cons_of_pos _ ha]

/-- Appending one row and then rewriting rows: the appended row is the hit
when nothing before it matches after the rewrite. -/
theorem find?_map_append_singleton {α : Type} (p : α → Bool) (g : α → α) (l : List α)
    (a : α) (hl : ∀ x ∈ l, p (g x) = false) (ha : p (g a) = true) :
    ((l ++ [a]).map g).find? p = some (g a) := by
  rw [List.map_append, List.map_cons, List.map_nil]
  refine find?_append_singleton p (l.map g) (g a) ?_ ha
  intro y hy
  obtain ⟨x, hx, rfl⟩ := List.mem_map.mp hy
  exact hl x hx

/-- The joined select of the review handlers resolves the change row by its
primary key: a successful resolution pins down the `find?` on code_changes. -/
theorem change_owner_query_find (db : DB) (change_id project_id : String)
    (c : CodeChange) (owner : String)
    (h : change_owner_query db change_id project_id = some (c, owner)) :
    db.code_changes.find? (fun x => x.id == change_id) = some c := by
  unfold change_owner_query at h
  cases hc : db.code_changes.find? (fun x => x.id == change_id) with
  | none => rw [hc] at h; simp at h
  | some c0 =>
    rw [hc] at h
    simp only [Option.some_bind] at h
    cases ht : db.tasks.find? (fun t => t.id == c0.task_id) with
    | none => rw [ht] at h; simp at h
    | some t =>
      rw [ht] at h
      simp only [Option.some_bind] at h
      by_cases hpid : (t.project_id == project_id) = true
      · rw [if_pos hpid] at h
        cases hp : db.projects.find? (fun p => p.id == t.project_id) with
        | none => rw [hp] at h; simp at h
        | some p =>
          rw [hp] at h
          simp only [Option.map_some'] at h
          exact congrArg some (Prod.ext_iff.mp (Option.some.inj h)).1
      · rw [if_neg hpid] at h
        simp at h

/-- C9: tier resolution in `AIService.generate_code` is a pure, total
function — it returns a configuration for every tier string without failure
— and any tier outside the known set (free, pro, premium) resolves to
exactly the free configuration: the free model identity and token budget via
the dictionary default, and the basic (free) generation path via the
dispatch. -/
theorem claim_C9 (tier : String)
    (h : tier ≠ "free" ∧ tier ≠ "pro" ∧ tier ≠ "premium") :
    generate_code_config tier = generate_code_config "free" := by
  obtain ⟨h1, h2, h3⟩ := h
  have e1 : (("free" : String) == tier) = false := beq_eq_false_iff_ne.mpr (Ne.symm h1)
  have e2 : (("pro" : String) == tier) = false := beq_eq_false_iff_ne.mpr (Ne.symm h2)
  have e3 : (("premium" : String) == tier) = false := beq_eq_false_iff_ne.mpr (Ne.symm h3)
  have e4 : (tier == "pro") = false := beq_eq_false_iff_ne.mpr h2
  have e5 : (tier == "premium") = false := beq_eq_false_iff_ne.mpr h3
  simp [generate_code_config, models_get, models_table, generate_code_path,
    List.find?, e1, e2, e3, e4, e5]

/-- C9 witness: the unknown tier "enterprise" resolves to exactly the free
configuration. -/
theorem claim_C9_witness :
    (("enterprise" : String) ≠ "free" ∧ ("enterprise" : String) ≠ "pro"
      ∧ ("enterprise" : String) ≠ "premium")
    ∧ generate_code_config "enterprise" = generate_code_config "free" :=
  ⟨by decide, claim_C9 "enterprise" (by decide)⟩

/-- C10: the spec-document handlers check no ownership: read, update and
rollback behave identically for every authenticated actor — the returned
value and the resulting store agree for any two actors, except for the
created_by stamp on the newly appended history snapshot (erased by
scrub_versions).  In particular any authenticated user can update or roll
back any project's spec documents. -/
theorem claim_C10 (db : DB) (project_id file_type content version_id history_id : String)
    (a b : User) :
    get_spec_file project_id file_type a db = get_spec_file project_id file_type b db
    ∧ (update_spec_file project_id file_type content a version_id db).1
        = (update_spec_file project_id file_type content b version_id db).1
    ∧ scrub_versions (update_spec_file project_id file_type content a version_id db).2
        = scrub_versions (update_spec_file project_id file_type content b version_id db).2
    ∧ (rollback_spec project_id file_type version_id a history_id db).1
        = (rollback_spec project_id file_type version_id b history_id db).1
    ∧ scrub_versions (rollback_spec project_id file_type version_id a history_id db).2
        = scrub_versions (rollback_spec project_id file_type version_id b history_id db).2 := by
  refine ⟨rfl, ?_, ?_, ?_, ?_⟩
  · cases h : current_spec_query db project_id file_type <;>
      simp [update_spec_file, h]
  · cases h : current_spec_query db project_id file_type <;>
      simp [update_spec_file, h, scrub_versions, List.map_append]
  · cases h1 : db.spec_versions.find? (fun v => v.id == version_id) with
    | none => simp [rollback_spec, h1]
    | some v =>
      cases h2 : db.spec_files.find? (fun s => s.id == v.spec_file_id) <;>
        simp [rollback_spec, h1, h2]
  · cases h1 : db.spec_versions.find? (fun v => v.id == version_id) with
    | none => simp [rollback_spec, h1]
    | some v =>
      cases h2 : db.spec_files.find? (fun s => s.id == v.spec_file_id) <;>
        simp [rollback_spec, h1, h2, scrub_versions, List.map_append]

/-- C7 counterexample: sv2 exists but belongs to project p2's document sf2,
not to the document identified by ("p1", "design") (which is sf1); the
claim demands NotFound with no record modified, yet the rollback succeeds
and mutates the store (it rolls back sf2). -/
theorem claim_C7_counterexample :
    spec_rows db_cross "p1" "design" = [sf1]
    ∧ sv2.spec_file_id ≠ sf1.id
    ∧ (rollback_spec "p1" "design" "sv2" u1 "h9" db_cross).1
        = .ok { sf2 with content := sv2.content, version := sf2.version + 1 }
    ∧ (rollback_spec "p1" "design" "sv2" u1 "h9" db_cross).2 ≠ db_cross := by
  refine ⟨by decide, by decide, by decide, by decide⟩

/-- C7 (amended): rollback fails with NotFound — creating and modifying
nothing — when the target SpecVersion is absent, or when the SpecDocument
referenced by the found version's spec_file_id is absent.  The
(project_id, doc_type) route parameters are never validated against the
version: a version of a different document rolls that other document back
(see the counterexample). -/
theorem claim_C7 (db : DB) (project_id file_type version_id history_id : String)
    (u : User) :
    (db.spec_versions.find? (fun v => v.id == version_id) = none →
      rollback_spec project_id file_type version_id u history_id db = (.error .notFound, db))
    ∧ (∀ v, db.spec_versions.find? (fun x => x.id == version_id) = some v →
        db.spec_files.find? (fun s => s.id == v.spec_file_id) = none →
        rollback_spec project_id file_type version_id u history_id db
          = (.error .notFound, db)) := by
  constructor
  · intro h
    simp [rollback_spec, h]
  · intro v h1 h2
    simp [rollback_spec, h1, h2]

/-- C7 witness: both NotFound paths at concrete inputs — a missing version
id, and an existing version row whose document is gone. -/
theorem claim_C7_witness :
    (db_spec.spec_versions.find? (fun v => v.id == "nope") = none
      ∧ rollback_spec "p1" "design" "nope" u1 "h1" db_spec = (.error .notFound, db_spec))
    ∧ (db_orphan.spec_versions.find? (fun x => x.id == "sv0") = some sv_orphan
      ∧ db_orphan.spec_files.find? (fun s => s.id == sv_orphan.spec_file_id) = none
      ∧ rollback_spec "p1" "design" "sv0" u1 "h1" db_orphan
          = (.error .notFound, db_orphan)) :=
  ⟨⟨by decide, (claim_C7 db_spec "p1" "design" "nope" "h1" u1).1 (by decide)⟩,
   ⟨by decide, by decide,
    (claim_C7 db_orphan "p1" "design" "sv0" "h1" u1).2 sv_orphan (by decide) (by decide)⟩⟩

/-- C6 counterexample: the change c1_rejected has already left pending
(approved = false), yet a later approve by the owner succeeds and flips the
decided record's approval state to true — the decided state is not
terminal. -/
theorem claim_C6_counterexample :
    c1_rejected.approved = some false
    ∧ (approve_change "p1" "c1" u1 db_decided).1 = .ok ()
    ∧ ((approve_change "p1" "c1" u1 db_decided).2.code_changes.find?
        (fun x => x.id == "c1")) = some { c1_rejected with approved := some true } := by
  refine ⟨by decide, by decide, by decide⟩

/-- Success path of approve_change: with the change resolved and the actor
the owner, the handler records approved = true. -/
theorem approve_change_eq (db : DB) (current_user : User) (project_id change_id : String)
    (c : CodeChange) (owner : String)
    (hq : change_owner_query db change_id project_id = some (c, owner))
    (howner : owner = current_user.id) :
    approve_change project_id change_id current_user db
      = (.ok (), set_approved db change_id true) := by
  have hne : ¬ current_user.id ≠ current_user.id := fun hcon => hcon rfl
  simp only [approve_change, hq, howner]
  rw [if_neg hne]

/-- Success path of reject_change: with the change resolved and the actor
the owner, the handler records approved = false. -/
theorem reject_change_eq (db : DB) (current_user : User) (project_id change_id : String)
    (c : CodeChange) (owner : String)
    (hq : change_owner_query db change_id project_id = some (c, owner))
    (howner : owner = current_user.id) :
    reject_change project_id change_id current_user db
      = (.ok (), set_approved db change_id false) := by
  have hne : ¬ current_user.id ≠ current_user.id := fun hcon => hcon rfl
  simp only [reject_change, hq, howner]
  rw [if_neg hne]

/-- Success path of request_modification, written out: the original change
row is overwritten to approved = false, one task is appended (completed by
process_modification_request), and one new pending change of kind "modify"
is appended whose diff is built textually from the original diff and the
feedback. -/
theorem request_modification_eq (db : DB) (current_user : User)
    (project_id change_id feedback task_id new_change_id : String)
    (c : CodeChange) (owner : String)
    (hq : change_owner_query db change_id project_id = some (c, owner))
    (howner : owner = current_user.id) :
    request_modification project_id change_id feedback current_user task_id new_change_id db
      = (.ok (),
         { db with
             tasks := (db.tasks ++
                 [({ id := task_id, project_id := project_id, agent_type := c.agent_type,
                     description := "Modify previous change: " ++ feedback,
                     status := "pending",
                     input_context := .modification_request feedback change_id c.file_path,
                     output := none } : Task)]).map (fun t =>
               if t.id == task_id
               then { t with status := "completed",
                             output := some (.modification_applied feedback) }
               else t),
             code_changes := (db.code_changes.map (fun x =>
                 if x.id == change_id then { x with approved := some false } else x)) ++
               [({ id := new_change_id, task_id := task_id, file_path := c.file_path,
                   change_type := "modify",
                   diff := "# Modified based on feedback: " ++ feedback ++ "\n" ++ c.diff ++
                     "\n+ // Additional modifications based on user feedback\n+ // " ++ feedback,
                   agent_type := c.agent_type,
                   reasoning := "Modified based on user feedback: " ++ feedback,
                   approved := none } : CodeChange)] }) := by
  have hne : ¬ current_user.id ≠ current_user.id := fun hcon => hcon rfl
  simp only [request_modification, hq, howner]
  rw [if_neg hne]
  rfl

/-- C6 (amended): approval states are not terminal.  None of approve,
reject or request_modification inspects the current approval state: applied
to a CodeChange that has already been decided (approved = some b) each of
them succeeds and overwrites the decision — approve records true, reject
and request_modification record false.  request_modification does, in
addition, spawn its new review cycle through a fresh Task and a fresh
CodeChange (see C5) rather than editing the decided record's content. -/
theorem claim_C6 (db : DB) (current_user : User) (project_id change_id : String)
    (c : CodeChange) (owner : String) (b : Bool)
    (hq : change_owner_query db change_id project_id = some (c, owner))
    (howner : owner = current_user.id)
    (hb : c.approved = some b) :
    (approve_change project_id change_id current_user db).1 = .ok ()
    ∧ ((approve_change project_id change_id current_user db).2.code_changes.find?
        (fun x => x.id == change_id)) = some { c with approved := some true }
    ∧ (reject_change project_id change_id current_user db).1 = .ok ()
    ∧ ((reject_change project_id change_id current_user db).2.code_changes.find?
        (fun x => x.id == change_id)) = some { c with approved := some false }
    ∧ (∀ feedback task_id new_change_id,
        (request_modification project_id change_id feedback current_user task_id
          new_change_id db).1 = .ok ()
        ∧ ((request_modification project_id change_id feedback current_user task_id
            new_change_id db).2.code_changes.find? (fun x => x.id == change_id)).map
              (fun x => x.approved) = some (some false)) := by
  have hfc : db.code_changes.find? (fun x => x.id == change_id) = some c :=
    change_owner_query_find db change_id project_id c owner hq
  have hupd : ∀ bb : Bool,
      (set_approved db change_id bb).code_changes.find? (fun x => x.id == change_id)
        = some { c with approved := some bb } := by
    intro bb
    unfold set_approved
    rw [find?_map_ite (fun x => x.id == change_id)
      (fun x => { x with approved := some bb }) (fun x hx => hx) db.code_changes, hfc]
    rfl
  refine ⟨?_, ?_, ?_, ?_, ?_⟩
  · rw [approve_change_eq db current_user project_id change_id c owner hq howner]
  · rw [approve_change_eq db current_user project_id change_id c owner hq howner]
    exact hupd true
  · rw [reject_change_eq db current_user project_id change_id c owner hq howner]
  · rw [reject_change_eq db current_user project_id change_id c owner hq howner]
    exact hupd false
  · intro feedback task_id new_change_id
    have hmap : ((db.code_changes.map (fun x =>
        if x.id == change_id then { x with approved := some false } else x)).find?
          (fun x => x.id == change_id)) = some { c with approved := some false } := by
      rw [find?_map_ite (fun x => x.id == change_id)
        (fun x => { x with approved := some false }) (fun x hx => hx) db.code_changes, hfc]
      rfl
    refine ⟨?_, ?_⟩
    · rw [request_modification_eq db current_user project_id change_id feedback task_id
        new_change_id c owner hq howner]
    · rw [request_modification_eq db current_user project_id change_id feedback task_id
        new_change_id c owner hq howner]
      exact congrArg (Option.map (fun x : CodeChange => x.approved))
        (find?_append_left (fun x => x.id == change_id) hmap)

/-- C6 witness: the decided change c1_rejected in db_decided is flipped to
approved = true by a later approve, and to false again by reject, and a
request_modification overwrites it to false while spawning the new cycle. -/
theorem claim_C6_witness :
    (approve_change "p1" "c1" u1 db_decided).1 = .ok ()
    ∧ ((approve_change "p1" "c1" u1 db_decided).2.code_changes.find?
        (fun x => x.id == "c1")) = some { c1_rejected with approved := some true }
    ∧ ((request_modification "p1" "c1" "fb" u1 "t2" "c2" db_decided).2.code_changes.find?
        (fun x => x.id == "c1")).map (fun x => x.approved) = some (some false) := by
  have h := claim_C6 db_decided u1 "p1" "c1" c1_rejected "u1" false (by decide) (by decide)
    (by decide)
  exact ⟨h.1, h.2.1, (h.2.2.2.2 "fb" "t2" "c2").2⟩

/-- C1: for every project and every authenticated actor that is not its
owner, submit, approve, reject and request_modification fail with Forbidden
once the existence check has passed (the project resp. the change/task/
project join resolves), and the store is returned completely unchanged: no
Task or CodeChange is created or mutated and the targeted change's approval
state is untouched. -/
theorem claim_C1 (db : DB) (current_user : User) :
    (∀ (gen : Gen) (mkChangeId : Nat → String)
        (project_id description agent_type task_id : String) (p : Project),
        db.projects.find? (fun x => x.id == project_id) = some p →
        p.user_id ≠ current_user.id →
        submit_task gen mkChangeId project_id description agent_type current_user task_id db
          = (.error .forbidden, db))
    ∧ (∀ (project_id change_id : String) (c : CodeChange) (owner : String),
        change_owner_query db change_id project_id = some (c, owner) →
        owner ≠ current_user.id →
        approve_change project_id change_id current_user db = (.error .forbidden, db))
    ∧ (∀ (project_id change_id : String) (c : CodeChange) (owner : String),
        change_owner_query db change_id project_id = some (c, owner) →
        owner ≠ current_user.id →
        reject_change project_id change_id current_user db = (.error .forbidden, db))
    ∧ (∀ (project_id change_id feedback task_id new_change_id : String) (c : CodeChange)
        (owner : String),
        change_owner_query db change_id project_id = some (c, owner) →
        owner ≠ current_user.id →
        request_modification project_id change_id feedback current_user task_id
          new_change_id db = (.error .forbidden, db)) := by
  refine ⟨?_, ?_, ?_, ?_⟩
  · intro gen mkChangeId project_id description agent_type task_id p hp hne
    simp only [submit_task, hp]
    rw [if_pos hne]
  · intro project_id change_id c owner hq hne
    simp only [approve_change, hq]
    rw [if_pos hne]
  · intro project_id change_id c owner hq hne
    simp only [reject_change, hq]
    rw [if_pos hne]
  · intro project_id change_id feedback task_id new_change_id c owner hq hne
    simp only [request_modification, hq]
    rw [if_pos hne]

/-- C1 witness: the non-owner u2 is rejected with Forbidden by all four
operations on project p1's task/changes, and the store is unchanged. -/
theorem claim_C1_witness :
    submit_task gen_one mk_id "p1" "add login" "backend" u2 "t9" db_main
        = (.error .forbidden, db_main)
    ∧ approve_change "p1" "c1" u2 db_main = (.error .forbidden, db_main)
    ∧ reject_change "p1" "c1" u2 db_main = (.error .forbidden, db_main)
    ∧ request_modification "p1" "c1" "fb" u2 "t2" "c2" db_main
        = (.error .forbidden, db_main) := by
  have h := claim_C1 db_main u2
  exact ⟨h.1 gen_one mk_id "p1" "add login" "backend" "t9" p1 (by decide) (by decide),
         h.2.1 "p1" "c1" c1 "u1" (by decide) (by decide),
         h.2.2.1 "p1" "c1" c1 "u1" (by decide) (by decide),
         h.2.2.2 "p1" "c1" "fb" "t2" "c2" c1 "u1" (by decide) (by decide)⟩

/-- Success path of rollback_spec, written out: one checkpoint row
snapshotting the pre-rollback version and content is appended, and the live
row takes the target version's content under version + 1. -/
theorem rollback_spec_eq (db : DB) (project_id file_type version_id history_id : String)
    (u : User) (v : SpecVersion) (cur : SpecFile)
    (hv : db.spec_versions.find? (fun x => x.id == version_id) = some v)
    (hc : db.spec_files.find? (fun x => x.id == v.spec_file_id) = some cur) :
    rollback_spec project_id file_type version_id u history_id db
      = (.ok { cur with content := v.content, version := cur.version + 1 },
         { db with
             spec_versions := db.spec_versions ++
               [({ id := history_id, spec_file_id := cur.id, version := cur.version,
                   content := cur.content,
                   changes_summary := "Before rollback to version " ++ toString v.version,
                   created_by := u.id } : SpecVersion)],
             spec_files := db.spec_files.map (fun x =>
               if x.id == cur.id
               then { x with content := v.content, version := cur.version + 1 }
               else x) }) := by
  simp only [rollback_spec, hv, hc]

/-- C3: a successful rollback to an existing version of a document leaves
the live content exactly equal to the target version's content, bumps the
version by exactly one (strictly greater, never rewound), appends exactly
one history row snapshotting the pre-rollback version and content, and
neither deletes nor renumbers any existing SpecVersion row — the history
grows by exactly one at the end. -/
theorem claim_C3 (db : DB) (project_id file_type version_id history_id : String)
    (u : User) (v : SpecVersion) (cur : SpecFile)
    (hv : db.spec_versions.find? (fun x => x.id == version_id) = some v)
    (hc : db.spec_files.find? (fun x => x.id == v.spec_file_id) = some cur) :
    (rollback_spec project_id file_type version_id u history_id db).1
        = .ok { cur with content := v.content, version := cur.version + 1 }
    ∧ ((rollback_spec project_id file_type version_id u history_id db).2.spec_files.find?
        (fun x => x.id == v.spec_file_id))
        = some { cur with content := v.content, version := cur.version + 1 }
    ∧ cur.version < cur.version + 1
    ∧ (rollback_spec project_id file_type version_id u history_id db).2.spec_versions
        = db.spec_versions ++
          [({ id := history_id, spec_file_id := cur.id, version := cur.version,
              content := cur.content,
              changes_summary := "Before rollback to version " ++ toString v.version,
              created_by := u.id } : SpecVersion)]
    ∧ (rollback_spec project_id file_type version_id u history_id db).2.spec_versions.length
        = db.spec_versions.length + 1 := by
  have hkey : cur.id = v.spec_file_id := by
    have h := List.find?_some hc
    simpa using h
  have hc' : db.spec_files.find? (fun x => x.id == cur.id) = some cur := by
    rw [hkey]; exact hc
  have heq := rollback_spec_eq db project_id file_type version_id history_id u v cur hv hc
  refine ⟨?_, ?_, Nat.lt_succ_self _, ?_, ?_⟩
  · rw [heq]
  · rw [heq, ← hkey]
    exact (find?_map_ite (fun x => x.id == cur.id)
      (fun x => { x with content := v.content, version := cur.version + 1 })
      (fun x hx => hx) db.spec_files).trans (by rw [hc'])
  · rw [heq]
  · rw [heq]
    simp

/-- C3 witness: rolling db_spec_hist back to its recorded version sv1
restores the old content under the incremented version and appends one
checkpoint row. -/
theorem claim_C3_witness :
    (rollback_spec "p1" "design" "sv1" u1 "h1" db_spec_hist).1
        = .ok { sf1 with content := sv1.content, version := sf1.version + 1 }
    ∧ (rollback_spec "p1" "design" "sv1" u1 "h1" db_spec_hist).2.spec_versions.length
        = db_spec_hist.spec_versions.length + 1 := by
  have h := claim_C3 db_spec_hist "p1" "design" "sv1" "h1" u1 sv1 sf1 (by decide) (by decide)
  exact ⟨h.1, h.2.2.2.2⟩

/-- Failure path of submit_task when the Generation Gateway fails: the
pending task row has already been inserted and stays; the error propagates
and nothing else is written. -/
theorem submit_task_gen_fail_eq (db : DB) (current_user : User)
    (project_id description agent_type task_id : String) (mkChangeId : Nat → String)
    (p : Project) (gen : Gen)
    (hp : db.projects.find? (fun x => x.id == project_id) = some p)
    (howner : p.user_id = current_user.id)
    (hgen : ∀ i, gen i = none) :
    submit_task gen mkChangeId project_id description agent_type current_user task_id db
      = (.error .generationFailed,
         { db with tasks := db.tasks ++
             [({ id := task_id, project_id := project_id, agent_type := agent_type,
                 description := description, status := "pending",
                 input_context := .user_request description, output := none } : Task)] }) := by
  have hne : ¬ p.user_id ≠ current_user.id := fun hcon => hcon howner
  simp only [submit_task, hp]
  rw [if_neg hne]
  simp only [process_agent_task, hgen]

/-- C4 (amended): when the Generation Gateway raises an error or times out,
the failure propagates to the caller, but the Task is NOT marked "failed":
the row inserted by submit_task remains with status "pending", and zero
CodeChange rows exist for that task — the change table is untouched. -/
theorem claim_C4 (db : DB) (current_user : User)
    (project_id description agent_type task_id : String) (mkChangeId : Nat → String)
    (p : Project) (gen : Gen)
    (hp : db.projects.find? (fun x => x.id == project_id) = some p)
    (howner : p.user_id = current_user.id)
    (hgen : ∀ i, gen i = none)
    (htask : ∀ t ∈ db.tasks, t.id ≠ task_id)
    (hchg : ∀ x ∈ db.code_changes, x.task_id ≠ task_id) :
    (submit_task gen mkChangeId project_id description agent_type current_user task_id db).1
        = .error .generationFailed
    ∧ ((submit_task gen mkChangeId project_id description agent_type current_user task_id
          db).2.tasks.find? (fun t => t.id == task_id)).map (fun t => t.status)
        = some "pending"
    ∧ changes_for (submit_task gen mkChangeId project_id description agent_type current_user
          task_id db).2 task_id = []
    ∧ (submit_task gen mkChangeId project_id description agent_type current_user task_id
          db).2.code_changes = db.code_changes := by
  have heq := submit_task_gen_fail_eq db current_user project_id description agent_type
    task_id mkChangeId p gen hp howner hgen
  refine ⟨?_, ?_, ?_, ?_⟩
  · rw [heq]
  · rw [heq]
    exact congrArg (Option.map (fun t : Task => t.status))
      (find?_append_singleton (fun t => t.id == task_id) db.tasks
        ({ id := task_id, project_id := project_id, agent_type := agent_type,
           description := description, status := "pending",
           input_context := .user_request description, output := none } : Task)
        (fun x hx => beq_eq_false_iff_ne.mpr (htask x hx)) (beq_self_eq_true task_id))
  · rw [heq]
    exact List.filter_eq_nil_iff.mpr (fun x hx => by
      simp [beq_eq_false_iff_ne.mpr (hchg x hx)])
  · rw [heq]

/-- C4 counterexample: with a failing gateway the claim demands
Task.status = "failed"; the code instead leaves the inserted task "pending"
(the exception propagates with no error handling), with zero CodeChanges. -/
theorem claim_C4_counterexample :
    (submit_task gen_fail mk_id "p1" "add login" "backend" u1 "t9" db_main).1
        = .error .generationFailed
    ∧ ((submit_task gen_fail mk_id "p1" "add login" "backend" u1 "t9" db_main).2.tasks.find?
        (fun t => t.id == "t9")).map (fun t => t.status) = some "pending"
    ∧ some ("pending" : String) ≠ some "failed"
    ∧ changes_for (submit_task gen_fail mk_id "p1" "add login" "backend" u1 "t9" db_main).2
        "t9" = [] := by
  refine ⟨by decide, by decide, by decide, by decide⟩

/-- C4 witness: the amended statement at the concrete failing gateway. -/
theorem claim_C4_witness :
    (submit_task gen_fail mk_id "p1" "add" "design" u1 "t9" db_main).1
        = .error .generationFailed
    ∧ ((submit_task gen_fail mk_id "p1" "add" "design" u1 "t9" db_main).2.tasks.find?
        (fun t => t.id == "t9")).map (fun t => t.status) = some "pending"
    ∧ changes_for (submit_task gen_fail mk_id "p1" "add" "design" u1 "t9" db_main).2 "t9" = []
    ∧ (submit_task gen_fail mk_id "p1" "add" "design" u1 "t9" db_main).2.code_changes
        = db_main.code_changes :=
  claim_C4 db_main u1 "p1" "add" "design" "t9" mk_id p1 gen_fail (by decide) (by decide)
    (fun i => rfl) (by decide) (by decide)

/-- C5 (amended): request_modification on a resolved change C by the owner
sets C.approval to false, creates exactly one new Task whose input context
carries the feedback text, C's file path and a back-reference to C's id,
and creates exactly one new pending CodeChange of kind "modify" under that
task with reasoning attributing it to the feedback — but it does NOT run
the generation flow of task submission: no Generation Gateway call is made,
and the new diff is built textually from the original diff and feedback
(header line, original diff, two trailer comment lines). -/
theorem claim_C5 (db : DB) (current_user : User)
    (project_id change_id feedback task_id new_change_id : String)
    (c : CodeChange) (owner : String)
    (hq : change_owner_query db change_id project_id = some (c, owner))
    (howner : owner = current_user.id)
    (htask : ∀ t ∈ db.tasks, t.id ≠ task_id)
    (hchg : ∀ x ∈ db.code_changes, x.id ≠ new_change_id) :
    (request_modification project_id change_id feedback current_user task_id new_change_id
        db).1 = .ok ()
    ∧ (request_modification project_id change_id feedback current_user task_id new_change_id
        db).2.tasks.length = db.tasks.length + 1
    ∧ (request_modification project_id change_id feedback current_user task_id new_change_id
        db).2.code_changes.length = db.code_changes.length + 1
    ∧ ((request_modification project_id change_id feedback current_user task_id new_change_id
        db).2.tasks.find? (fun t => t.id == task_id))
        = some { id := task_id, project_id := project_id, agent_type := c.agent_type,
                 description := "Modify previous change: " ++ feedback,
                 status := "completed",
                 input_context := .modification_request feedback change_id c.file_path,
                 output := some (.modification_applied feedback) }
    ∧ ((request_modification project_id change_id feedback current_user task_id new_change_id
        db).2.code_changes.find? (fun x => x.id == change_id))
        = some { c with approved := some false }
    ∧ ((request_modification project_id change_id feedback current_user task_id new_change_id
        db).2.code_changes.find? (fun x => x.id == new_change_id))
        = some { id := new_change_id, task_id := task_id, file_path := c.file_path,
                 change_type := "modify",
                 diff := "# Modified based on feedback: " ++ feedback ++ "\n" ++ c.diff ++
                   "\n+ // Additional modifications based on user feedback\n+ // " ++ feedback,
                 agent_type := c.agent_type,
                 reasoning := "Modified based on user feedback: " ++ feedback,
                 approved := none } := by
  have heq := request_modification_eq db current_user project_id change_id feedback task_id
    new_change_id c owner hq howner
  have hfc := change_owner_query_find db change_id project_id c owner hq
  refine ⟨?_, ?_, ?_, ?_, ?_, ?_⟩
  · rw [heq]
  · rw [heq]
    simp
  · rw [heq]
    simp
  · rw [heq]
    refine (find?_map_append_singleton (fun t : Task => t.id == task_id)
      (fun t => if t.id == task_id
        then { t with status := "completed",
                      output := some (.modification_applied feedback) }
        else t)
      db.tasks
      ({ id := task_id, project_id := project_id, agent_type := c.agent_type,
         description := "Modify previous change: " ++ feedback, status := "pending",
         input_context := .modification_request feedback change_id c.file_path,
         output := none } : Task)
      (fun x hx => by simp [beq_eq_false_iff_ne.mpr (htask x hx)])
      (by simp)).trans ?_
    simp
  · rw [heq]
    have hmap : ((db.code_changes.map (fun x =>
        if x.id == change_id then { x with approved := some false } else x)).find?
          (fun x => x.id == change_id)) = some { c with approved := some false } := by
      rw [find?_map_ite (fun x => x.id == change_id)
        (fun x => { x with approved := some false }) (fun x hx => hx) db.code_changes, hfc]
      rfl
    exact find?_append_left (fun x : CodeChange => x.id == change_id) hmap
  · rw [heq]
    exact find?_append_singleton (fun x : CodeChange => x.id == new_change_id) _ _
      (fun y hy => by
        obtain ⟨x, hx, rfl⟩ := List.mem_map.mp hy
        by_cases hid : (x.id == change_id) = true
        · simp only [hid, if_true]
          simpa using beq_eq_false_iff_ne.mpr (hchg x hx)
        · simp only [hid, if_false]
          exact beq_eq_false_iff_ne.mpr (hchg x hx))
      (beq_self_eq_true new_change_id)

/-- C5 counterexample: the claim says request_modification runs the same
generation flow as task submission — invoking the Generation Gateway — to
produce the new CodeChange.  That flow renders every diff as a unified
addition listing (render_diff: every line is "+ "-prefixed); had the
gateway (fixture gen_one, generating content "x") been invoked, the new
change's diff would have been render_diff "x" = "+ x".  Instead the
produced diff starts with a "# Modified based on feedback:" header — it is
not an addition listing and differs from the gateway rendering: no
generation flow ran. -/
theorem claim_C5_counterexample :
    ((request_modification "p1" "c1" "fb" u1 "t2" "c2" db_main).2.code_changes.find?
        (fun x => x.id == "c2")).map (fun x : CodeChange => x.diff)
      = some ("# Modified based on feedback: fb\n+ x\n+ // Additional modifications based on user feedback\n+ // fb")
    ∧ diff_is_addition_listing
        "# Modified based on feedback: fb\n+ x\n+ // Additional modifications based on user feedback\n+ // fb"
      = false
    ∧ diff_is_addition_listing (render_diff "x") = true
    ∧ render_diff "x"
      ≠ "# Modified based on feedback: fb\n+ x\n+ // Additional modifications based on user feedback\n+ // fb"
    ∧ gen_one { tier := "free", description := "d", agent_type := "design", context := [] }
      = some { files := [("auth.js", "x")], reasoning := "r" } := by
  refine ⟨by decide, by decide, by decide, by decide, rfl⟩

/-- C5 witness: the amended statement at a concrete input — pending change
c1 of db_main, feedback "fb", fresh ids t2/c2. -/
theorem claim_C5_witness :
    (request_modification "p1" "c1" "fb" u1 "t2" "c2" db_main).1 = .ok ()
    ∧ (request_modification "p1" "c1" "fb" u1 "t2" "c2" db_main).2.tasks.length
        = db_main.tasks.length + 1
    ∧ (request_modification "p1" "c1" "fb" u1 "t2" "c2" db_main).2.code_changes.length
        = db_main.code_changes.length + 1
    ∧ ((request_modification "p1" "c1" "fb" u1 "t2" "c2" db_main).2.tasks.find?
        (fun t => t.id == "t2"))
        = some { id := "t2", project_id := "p1", agent_type := c1.agent_type,
                 description := "Modify previous change: " ++ "fb", status := "completed",
                 input_context := .modification_request "fb" "c1" c1.file_path,
                 output := some (.modification_applied "fb") }
    ∧ ((request_modification "p1" "c1" "fb" u1 "t2" "c2" db_main).2.code_changes.find?
        (fun x => x.id == "c1")) = some { c1 with approved := some false }
    ∧ ((request_modification "p1" "c1" "fb" u1 "t2" "c2" db_main).2.code_changes.find?
        (fun x => x.id == "c2"))
        = some { id := "c2", task_id := "t2", file_path := c1.file_path,
                 change_type := "modify",
                 diff := "# Modified based on feedback: " ++ "fb" ++ "\n" ++ c1.diff ++
                   "\n+ // Additional modifications based on user feedback\n+ // " ++ "fb",
                 agent_type := c1.agent_type,
                 reasoning := "Modified based on user feedback: " ++ "fb",
                 approved := none } :=
  claim_C5 db_main u1 "p1" "c1" "fb" "t2" "c2" c1 "u1" (by decide) (by decide) (by decide)
    (by decide)

/-- Success path of submit_task: the pending task is inserted and returned;
process_agent_task creates one pending "create" change per generated file
with the rendered addition diff, then marks the task completed with the
generated paths as output. -/
theorem submit_task_gen_ok_eq (db : DB) (current_user : User)
    (project_id description agent_type task_id : String) (mkChangeId : Nat → String)
    (p : Project) (gen : Gen) (res : GenResult)
    (hp : db.projects.find? (fun x => x.id == project_id) = some p)
    (howner : p.user_id = current_user.id)
    (hgen : ∀ i, gen i = some res) :
    submit_task gen mkChangeId project_id description agent_type current_user task_id db
      = (.ok { id := task_id, project_id := project_id, agent_type := agent_type,
               description := description, status := "pending",
               input_context := .user_request description, output := none },
         { db with
             tasks := (db.tasks ++
                 [({ id := task_id, project_id := project_id, agent_type := agent_type,
                     description := description, status := "pending",
                     input_context := .user_request description,
                     output := none } : Task)]).map (fun t =>
               if t.id == task_id
               then { t with status := "completed",
                             output := some (.generated_files (res.files.map Prod.fst)) }
               else t),
             code_changes := db.code_changes ++ res.files.enum.map (fun pc =>
               ({ id := mkChangeId pc.1, task_id := task_id, file_path := pc.2.1,
                  change_type := "create", diff := render_diff pc.2.2,
                  agent_type := agent_type, reasoning := res.reasoning,
                  approved := none } : CodeChange)) }) := by
  have hne : ¬ p.user_id ≠ current_user.id := fun hcon => hcon howner
  simp only [submit_task, hp]
  rw [if_neg hne]
  simp only [process_agent_task, hgen]

/-- Mapping a function of the element alone over an enumerated list forgets
the indices. -/
theorem enum_map_snd_comp {α β : Type} (f : α → β) (l : List α) :
    l.enum.map (fun pc => f pc.2) = l.map f := by
  rw [show (fun pc : Nat × α => f pc.2) = f ∘ Prod.snd from rfl, ← List.map_map,
    List.enum_map_snd]

/-- C8: a successful task submission creates exactly one CodeChange per
generated file, pending (approved unset) and with the diff rendered as a
unified-style addition listing of the file's content, and marks the Task
"completed" with an output listing the generated file paths.  Every created
change has kind "create": the claim's "modify" case requires a prior
CodeChange on the same path in the submission's task chain, and a fresh
submission's chain is the new task alone (its input context is a plain
user_request with no back-reference), which has no changes before
generation — so the claim's conditional collapses to "create" here. -/
theorem claim_C8 (db : DB) (current_user : User)
    (project_id description agent_type task_id : String) (mkChangeId : Nat → String)
    (p : Project) (gen : Gen) (res : GenResult)
    (hp : db.projects.find? (fun x => x.id == project_id) = some p)
    (howner : p.user_id = current_user.id)
    (hgen : ∀ i, gen i = some res)
    (htask : ∀ t ∈ db.tasks, t.id ≠ task_id)
    (hchg : ∀ x ∈ db.code_changes, x.task_id ≠ task_id) :
    (changes_for (submit_task gen mkChangeId project_id description agent_type current_user
        task_id db).2 task_id).map (fun ch => (ch.file_path, ch.diff))
        = res.files.map (fun pc => (pc.1, render_diff pc.2))
    ∧ (changes_for (submit_task gen mkChangeId project_id description agent_type current_user
        task_id db).2 task_id).length = res.files.length
    ∧ (∀ ch ∈ changes_for (submit_task gen mkChangeId project_id description agent_type
        current_user task_id db).2 task_id,
        ch.approved = none ∧ ch.change_type = "create" ∧ ch.agent_type = agent_type
          ∧ ch.reasoning = res.reasoning)
    ∧ ((submit_task gen mkChangeId project_id description agent_type current_user task_id
        db).2.tasks.find? (fun t => t.id == task_id)).map (fun t => (t.status, t.output))
        = some ("completed", some (.generated_files (res.files.map Prod.fst))) := by
  have heq := submit_task_gen_ok_eq db current_user project_id description agent_type
    task_id mkChangeId p gen res hp howner hgen
  have hch : changes_for (submit_task gen mkChangeId project_id description agent_type
      current_user task_id db).2 task_id
      = res.files.enum.map (fun pc =>
          ({ id := mkChangeId pc.1, task_id := task_id, file_path := pc.2.1,
             change_type := "create", diff := render_diff pc.2.2,
             agent_type := agent_type, reasoning := res.reasoning,
             approved := none } : CodeChange)) := by
    rw [heq]
    have hnil : db.code_changes.filter (fun ch : CodeChange => ch.task_id == task_id) = [] :=
      List.filter_eq_nil_iff.mpr (fun x hx => by
        simp [beq_eq_false_iff_ne.mpr (hchg x hx)])
    dsimp only [changes_for]
    rw [List.filter_append, hnil, List.nil_append]
    refine List.filter_eq_self.mpr ?_
    intro a ha
    obtain ⟨pc, _, rfl⟩ := List.mem_map.mp ha
    exact beq_self_eq_true task_id
  refine ⟨?_, ?_, ?_, ?_⟩
  · rw [hch, List.map_map]
    exact enum_map_snd_comp (fun pc => (pc.1, render_diff pc.2)) res.files
  · rw [hch]
    simp [List.enum_length]
  · intro ch hmem
    rw [hch] at hmem
    obtain ⟨pc, _, rfl⟩ := List.mem_map.mp hmem
    exact ⟨rfl, rfl, rfl, rfl⟩
  · rw [heq]
    refine (congrArg (Option.map (fun t : Task => (t.status, t.output)))
      (find?_map_append_singleton (fun t : Task => t.id == task_id)
        (fun t => if t.id == task_id
          then { t with status := "completed",
                        output := some (.generated_files (res.files.map Prod.fst)) }
          else t)
        db.tasks
        ({ id := task_id, project_id := project_id, agent_type := agent_type,
           description := description, status := "pending",
           input_context := .user_request description, output := none } : Task)
        (fun x hx => by simp [beq_eq_false_iff_ne.mpr (htask x hx)])
        (by simp))).trans ?_
    simp

/-- C8 witness: submitting against p1 with the fixture gateway gen_one
yields one pending "create" change for auth.js with diff "+ x" and a
completed task listing the path. -/
theorem claim_C8_witness :
    (changes_for (submit_task gen_one mk_id "p1" "add" "backend" u1 "t9" db_main).2
        "t9").map (fun ch => (ch.file_path, ch.diff))
        = [("auth.js", "x")].map (fun pc => (pc.1, render_diff pc.2))
    ∧ (changes_for (submit_task gen_one mk_id "p1" "add" "backend" u1 "t9" db_main).2
        "t9").length = ([("auth.js", "x")] : List (String × String)).length
    ∧ ((submit_task gen_one mk_id "p1" "add" "backend" u1 "t9" db_main).2.tasks.find?
        (fun t => t.id == "t9")).map (fun t => (t.status, t.output))
        = some ("completed", some (.generated_files ([("auth.js", "x")].map Prod.fst))) := by
  have h := claim_C8 db_main u1 "p1" "add" "backend" "t9" mk_id p1 gen_one
    { files := [("auth.js", "x")], reasoning := "r" } (by decide) (by decide) (fun i => rfl)
    (by decide) (by decide)
  exact ⟨h.1, h.2.1, h.2.2.2⟩

/-- Single update step, written out: with exactly one live row for
(project_id, file_type), the handler snapshots the pre-update version and
content into a new history row and then overwrites the live row with the
new content under version + 1. -/
theorem update_spec_file_eq (db : DB) (project_id file_type new_content version_id : String)
    (u : User) (s : SpecFile)
    (hs : spec_rows db project_id file_type = [s]) :
    update_spec_file project_id file_type new_content u version_id db
      = (.ok { s with content := new_content, version := s.version + 1 },
         { db with
             spec_versions := db.spec_versions ++
               [({ id := version_id, spec_file_id := s.id, version := s.version,
                   content := s.content, changes_summary := "Updated via editor",
                   created_by := u.id } : SpecVersion)],
             spec_files := db.spec_files.map (fun x =>
               if x.id == s.id
               then { x with content := new_content, version := s.version + 1 }
               else x) }) := by
  have hq : current_spec_query db project_id file_type = some s := by
    unfold current_spec_query
    rw [hs]
    rfl
  simp only [update_spec_file, hq]

/-- The rewrite applied by an update step preserves project_id and
file_type, so the (project_id, file_type) row set is the rewritten
singleton. -/
theorem update_step_rows (db : DB) (project_id file_type new_content version_id : String)
    (u : User) (s : SpecFile)
    (hs : spec_rows db project_id file_type = [s]) :
    spec_rows (update_spec_file project_id file_type new_content u version_id db).2
        project_id file_type
      = [{ s with content := new_content, version := s.version + 1 }] := by
  rw [update_spec_file_eq db project_id file_type new_content version_id u s hs]
  dsimp only [spec_rows]
  rw [filter_map_comm (fun x : SpecFile => x.project_id == project_id
      && x.file_type == file_type)
    (fun x => if x.id == s.id
      then { x with content := new_content, version := s.version + 1 } else x)
    (fun x => by by_cases hx : (x.id == s.id) = true <;> simp [hx]) db.spec_files]
  rw [show db.spec_files.filter (fun x : SpecFile => x.project_id == project_id
      && x.file_type == file_type) = [s] from hs]
  simp

/-- Invariant of the update sequence: starting from a single live row s,
after the whole sequence the live row carries the last content under
version + N, and exactly the snapshot chain (pre-update version and content
of each step) has been appended to the history. -/
theorem update_iter_invariant (project_id file_type : String) (u : User)
    (mkVersionId : Nat → String) :
    ∀ (cs : List String) (k : Nat) (db : DB) (s : SpecFile),
      spec_rows db project_id file_type = [s] →
      (∃ s1, spec_rows (update_spec_file_iter project_id file_type u mkVersionId k cs db)
            project_id file_type = [s1]
          ∧ s1.id = s.id ∧ s1.content = final_content s.content cs
          ∧ s1.version = s.version + cs.length)
      ∧ (update_spec_file_iter project_id file_type u mkVersionId k cs db).spec_versions
          = db.spec_versions ++ snapshot_chain s.id u mkVersionId k s.version s.content cs
  | [], k, db, s, hs => by
      refine ⟨⟨s, hs, rfl, rfl, by simp⟩, by simp [update_spec_file_iter, snapshot_chain]⟩
  | c :: rest, k, db, s, hs => by
      have heq := update_spec_file_eq db project_id file_type c (mkVersionId k) u s hs
      have hrows := update_step_rows db project_id file_type c (mkVersionId k) u s hs
      obtain ⟨⟨s2, hrows2, hid2, hcontent2, hver2⟩, hsnap2⟩ :=
        update_iter_invariant project_id file_type u mkVersionId rest (k + 1)
          (update_spec_file project_id file_type c u (mkVersionId k) db).2
          { s with content := c, version := s.version + 1 } hrows
      have hiter : update_spec_file_iter project_id file_type u mkVersionId k (c :: rest) db
          = update_spec_file_iter project_id file_type u mkVersionId (k + 1) rest
              (update_spec_file project_id file_type c u (mkVersionId k) db).2 := rfl
      refine ⟨⟨s2, by rw [hiter]; exact hrows2, ?_, ?_, ?_⟩, ?_⟩
      · rw [hid2]
      · rw [hcontent2]
        rfl
      · rw [hver2]
        show s.version + 1 + rest.length = s.version + (rest.length + 1)
        omega
      · rw [hiter, hsnap2]
        have hv1 : (update_spec_file project_id file_type c u (mkVersionId k) db).2.spec_versions
            = db.spec_versions ++
              [({ id := mkVersionId k, spec_file_id := s.id, version := s.version,
                  content := s.content, changes_summary := "Updated via editor",
                  created_by := u.id } : SpecVersion)] := by
          rw [heq]
        rw [hv1, List.append_assoc]
        rfl

/-- Chain snapshots carry exactly the consecutive version numbers starting
at the document's initial version. -/
theorem snapshot_chain_versions (spec_file_id : String) (u : User)
    (mkVersionId : Nat → String) :
    ∀ (cs : List String) (k v : Nat) (c : String),
      (snapshot_chain spec_file_id u mkVersionId k v c cs).map (fun x => x.version)
        = List.range' v cs.length
  | [], _, _, _ => rfl
  | c1 :: rest, k, v, c => by
      simp only [snapshot_chain, List.map_cons, List.length_cons]
      rw [snapshot_chain_versions spec_file_id u mkVersionId rest (k + 1) (v + 1) c1]
      rfl

/-- Chain snapshots carry exactly the successive contents the document
held: the initial content followed by each overwritten content except the
last. -/
theorem snapshot_chain_contents (spec_file_id : String) (u : User)
    (mkVersionId : Nat → String) :
    ∀ (cs : List String) (k v : Nat) (c : String),
      (snapshot_chain spec_file_id u mkVersionId k v c cs).map (fun x => x.content)
        = (c :: cs).take cs.length
  | [], _, _, _ => rfl
  | c1 :: rest, k, v, c => by
      simp only [snapshot_chain, List.map_cons, List.length_cons]
      rw [snapshot_chain_contents spec_file_id u mkVersionId rest (k + 1) (v + 1) c1]
      rfl

/-- Every chain snapshot references the document it snapshots. -/
theorem snapshot_chain_filter (spec_file_id : String) (u : User)
    (mkVersionId : Nat → String) :
    ∀ (cs : List String) (k v : Nat) (c : String),
      (snapshot_chain spec_file_id u mkVersionId k v c cs).filter
          (fun x => x.spec_file_id == spec_file_id)
        = snapshot_chain spec_file_id u mkVersionId k v c cs
  | [], _, _, _ => rfl
  | c1 :: rest, k, v, c => by
      simp only [snapshot_chain, List.filter_cons, beq_self_eq_true, if_true]
      rw [snapshot_chain_filter spec_file_id u mkVersionId rest (k + 1) (v + 1) c1]

/-- C2: starting from a document D with a single live row (version v0) and
no history rows, N sequential updates leave D.version = v0 + N with the
last written content, and the SpecVersion rows for D carry exactly the
version numbers v0, v0+1, ..., v0+N-1 (List.range' v0 N), each snapshot
storing the content D held while its live version field equaled that number
(the pre-update snapshot of update_spec_file_eq is taken before the version
is incremented by exactly 1 and the content replaced). -/
theorem claim_C2 (project_id file_type : String) (u : User) (mkVersionId : Nat → String)
    (cs : List String) (k : Nat) (db : DB) (s : SpecFile)
    (hs : spec_rows db project_id file_type = [s])
    (hv : versions_for db s.id = []) :
    (∃ s1, spec_rows (update_spec_file_iter project_id file_type u mkVersionId k cs db)
          project_id file_type = [s1]
        ∧ s1.version = s.version + cs.length
        ∧ s1.content = final_content s.content cs)
    ∧ (versions_for (update_spec_file_iter project_id file_type u mkVersionId k cs db)
        s.id).map (fun x => x.version) = List.range' s.version cs.length
    ∧ (versions_for (update_spec_file_iter project_id file_type u mkVersionId k cs db)
        s.id).map (fun x => x.content) = (s.content :: cs).take cs.length := by
  obtain ⟨⟨s1, h1, hid, hcontent, hver⟩, hsnap⟩ :=
    update_iter_invariant project_id file_type u mkVersionId cs k db s hs
  have hvf : versions_for (update_spec_file_iter project_id file_type u mkVersionId k cs db)
      s.id = snapshot_chain s.id u mkVersionId k s.version s.content cs := by
    unfold versions_for
    rw [hsnap, List.filter_append]
    rw [show db.spec_versions.filter (fun x => x.spec_file_id == s.id) = [] from hv]
    rw [List.nil_append]
    exact snapshot_chain_filter s.id u mkVersionId cs k s.version s.content
  exact ⟨⟨s1, h1, hver, hcontent⟩,
    by rw [hvf]; exact snapshot_chain_versions s.id u mkVersionId cs k s.version s.content,
    by rw [hvf]; exact snapshot_chain_contents s.id u mkVersionId cs k s.version s.content⟩

/-- C2 witness: two updates on db_spec's single design document (version 1,
no history) leave it at version 3 with content "v2", with history rows
numbered exactly 1 and 2 carrying the contents "v0" and "v1". -/
theorem claim_C2_witness :
    (∃ s1, spec_rows (update_spec_file_iter "p1" "design" u1 (fun n => toString n) 0
          ["v1", "v2"] db_spec) "p1" "design" = [s1]
        ∧ s1.version = sf1.version + (["v1", "v2"] : List String).length
        ∧ s1.content = final_content sf1.content ["v1", "v2"])
    ∧ (versions_for (update_spec_file_iter "p1" "design" u1 (fun n => toString n) 0
        ["v1", "v2"] db_spec) sf1.id).map (fun x => x.version)
        = List.range' sf1.version (["v1", "v2"] : List String).length
    ∧ (versions_for (update_spec_file_iter "p1" "design" u1 (fun n => toString n) 0
        ["v1", "v2"] db_spec) sf1.id).map (fun x => x.content)
        = (sf1.content :: ["v1", "v2"]).take (["v1", "v2"] : List String).length :=
  claim_C2 "p1" "design" u1 (fun n => toString n) ["v1", "v2"] 0 db_spec sf1
    (by decide) (by decide)

end InitFlow
